import Mathlib

/-!
Shallow embedding of the kontra-trading bot (TypeScript sources in src/),
covering the pieces the specification claims speak about:

* the `new_swap` stream-event handler of `src/index.ts` (blacklist guard,
  Jupiter detection, BUY classification, minimum-trigger filter);
* `loadBlacklist` of `src/index.ts`;
* the active variant of `Bot.sell` and `Bot.swap` of `src/bot.ts`
  (the three-argument `Bot` constructed in `src/index.ts`), plus the first
  variant of `Bot.swap` kept in the same file;
* the stream error handler of `GrpcListeners.subscribeToRaydiumPools`;
* the `sellExecutionCount` bookkeeping of `Bot`.

JavaScript numbers that carry token amounts are modelled as rationals
(the handler only compares and subtracts them); raw on-chain amounts and
BN arithmetic are modelled as naturals with truncating division.
-/

namespace KontraTrading

/-- WSOL mint address, `src/index.ts` line 260. -/
def wsolMint : String := "So11111111111111111111111111111111111111112"

/-- Jupiter aggregator program id, `src/index.ts` line 235. -/
def jupiterProgramId : String := "JUP6LkbZbjS1jKKwapdHNy74zcZ3tLUZoi5QNyVTaV4"

/-- One entry of `preTokenBalances` / `postTokenBalances` as the handler
reads it: the mint, the nullable `uiTokenAmount.uiAmount`, and
`parseFloat(uiTokenAmount.amount)` (the raw amount string parsed as a
number, used for the WSOL lamports comparison). -/
structure TokenBalanceInfo where
  mint : String
  uiAmount : Option ℚ
  amount : ℚ
deriving DecidableEq, Repr

/-- The slice of a parsed transaction the `new_swap` handler consumes:
`transaction.message.accountKeys` (base58 strings, fee payer first) and
`meta.preTokenBalances` / `meta.postTokenBalances` (nullable). -/
structure ParsedTx where
  accountKeys : List String
  preTokenBalances : Option (List TokenBalanceInfo)
  postTokenBalances : Option (List TokenBalanceInfo)
deriving DecidableEq, Repr

/-- Outcome of one run of the `new_swap` handler of `src/index.ts`. -/
inductive HandlerResult where
  /-- returned at the blacklist guard, line 243. -/
  | blacklisted
  /-- returned at the missing pre/post balance guard, line 256. -/
  | missingBalances
  /-- the WSOL or tracked-mint entries were not all found, line 313. -/
  | noMatchingAccounts
  /-- the WSOL delta was at most the trigger, lines 289 and 306. -/
  | discardedBelowTrigger
  /-- the token delta did not have the BUY direction of its branch. -/
  | noBuy
  /-- `bot.sell` was invoked with this `buyTokenAmount`. -/
  | sellTriggered (buyTokenAmount : ℚ)
deriving DecidableEq, Repr

/-- The `new_swap` handler body of `src/index.ts` lines 228-316, after the
transaction has been fetched: blacklist guard on `accountKeys[0]`, Jupiter
detection over the account keys, extraction of the WSOL and tracked-mint
balance entries, then the two classification branches.  `trigger` is
`MINIMUM_BUY_TRIGGER` (in SOL, converted to lamports by the handler) and
`tokenAMint` is `TOKEN_ACCOUNT`. -/
def newSwapHandler (blacklist : List String) (trigger : ℚ) (tokenAMint : String)
    (tx : ParsedTx) : HandlerResult :=
  let buyerPublicKey := tx.accountKeys.headD ""
  if buyerPublicKey ∈ blacklist then .blacklisted
  else
    let isJupiter := tx.accountKeys.any (fun k => k = jupiterProgramId)
    match tx.preTokenBalances, tx.postTokenBalances with
    | some preBalances, some postBalances =>
      match preBalances.find? (fun b => b.mint = wsolMint),
            preBalances.find? (fun b => b.mint = tokenAMint),
            postBalances.find? (fun b => b.mint = wsolMint),
            postBalances.find? (fun b => b.mint = tokenAMint) with
      | some wsolPre, some tokenAPre, some wsolPost, some tokenAPost =>
        let preTokenAAmount := tokenAPre.uiAmount.getD 0
        let postTokenAAmount := tokenAPost.uiAmount.getD 0
        let preWsolAmountLamports := wsolPre.amount
        let postWsolAmountLamports := wsolPost.amount
        let minimumBuyTriggerLamports := trigger * 1000000000
        if isJupiter then
          if postTokenAAmount > preTokenAAmount then
            if postWsolAmountLamports - preWsolAmountLamports ≤ minimumBuyTriggerLamports then
              .discardedBelowTrigger
            else
              .sellTriggered (postTokenAAmount - preTokenAAmount)
          else .noBuy
        else
          if postTokenAAmount < preTokenAAmount then
            if postWsolAmountLamports - preWsolAmountLamports ≤ minimumBuyTriggerLamports then
              .discardedBelowTrigger
            else
              .sellTriggered (preTokenAAmount - postTokenAAmount)
          else .noBuy
      | _, _, _, _ => .noMatchingAccounts
    | _, _ => .missingBalances

/-- `loadBlacklist` of `src/index.ts` lines 60-69 on file content that was
read successfully: split on newlines, trim each line, drop empty lines.
(The returned JS `Set` is modelled by the resulting list; `has` is
membership.) -/
def loadBlacklist (data : String) : List String :=
  ((data.splitOn "\n").map String.trim).filter (fun line => line ≠ "")

/-- True exactly on the handler outcome that invokes `bot.sell`. -/
def triggersSell : HandlerResult → Bool
  | .sellTriggered _ => true
  | _ => false

/-- Direction argument of `Bot.swap`. -/
inductive Direction where
  | buy
  | sell
deriving DecidableEq, Repr

/-- One instruction of the assembled transaction message, keeping the data
the claims mention. -/
inductive Instr where
  /-- `ComputeBudgetProgram.setComputeUnitPrice`. -/
  | computeUnitPrice (microLamports : ℕ)
  /-- `ComputeBudgetProgram.setComputeUnitLimit`. -/
  | computeUnitLimit (units : ℕ)
  /-- `createAssociatedTokenAccountIdempotentInstruction` for the
  destination account. -/
  | createAssociatedTokenAccount
  /-- the inner swap instruction of `Liquidity.makeSwapFixedInInstruction`. -/
  | swapFixedIn (amountInRaw minAmountOutRaw : ℕ)
  /-- `createCloseAccountInstruction` on the source account. -/
  | closeAccount
deriving DecidableEq, Repr

/-- Instruction list of the message assembled by the ACTIVE `Bot.swap`
(`src/bot.ts` lines 406-429, the three-argument `Bot` built in
`src/index.ts`): compute-budget instructions unless the executor is Jito,
destination-account creation for the buy direction, the swap instruction,
and then — in this variant — an empty spread for the sell direction
(`direction === "sell" ? [] : []`). -/
def swapInstructions (isJito : Bool) (unitPrice unitLimit : ℕ)
    (direction : Direction) (amountInRaw minAmountOutRaw : ℕ) : List Instr :=
  (if isJito then [] else [.computeUnitPrice unitPrice, .computeUnitLimit unitLimit])
    ++ (if direction = .buy then [.createAssociatedTokenAccount] else [])
    ++ [.swapFixedIn amountInRaw minAmountOutRaw]
    ++ (if direction = .sell then [] else [])

/-- Instruction list of the message assembled by the FIRST `Bot.swap`
variant kept in `src/bot.ts` (lines 187-210): identical except that the
sell direction appends `createCloseAccountInstruction` on the source
account. -/
def swapInstructionsFirstVariant (isJito : Bool) (unitPrice unitLimit : ℕ)
    (direction : Direction) (amountInRaw minAmountOutRaw : ℕ) : List Instr :=
  (if isJito then [] else [.computeUnitPrice unitPrice, .computeUnitLimit unitLimit])
    ++ (if direction = .buy then [.createAssociatedTokenAccount] else [])
    ++ [.swapFixedIn amountInRaw minAmountOutRaw]
    ++ (if direction = .sell then [.closeAccount] else [])

/-- Outcome of one iteration of the sell retry loop, as seen from the
loop body of `Bot.sell` (`src/bot.ts` lines 312-355).  A throw before the
`executeAndConfirm` call (pool info fetch, quote, blockhash) is caught by
the `catch` and consumes the iteration without a submission; a throw from
`executeAndConfirm` itself still counts as a submission. -/
inductive AttemptOutcome where
  | confirmed
  | unconfirmed
  | threwBeforeSubmit
  | threwAfterSubmit
deriving DecidableEq, Repr

/-- The `for (let i = 0; i < maxSellRetries; i++)` loop of `Bot.sell`:
runs at most `fuel` further iterations starting at index `i`, stops after
the first confirmed result (the `break`), and otherwise continues — a
caught throw does not stop the loop.  Returns the outcomes of the
iterations actually performed, in order. -/
def sellRetryLoop (outcomes : ℕ → AttemptOutcome) : ℕ → ℕ → List AttemptOutcome
  | 0, _ => []
  | fuel + 1, i =>
    outcomes i :: (if outcomes i = .confirmed then [] else sellRetryLoop outcomes fuel (i + 1))

/-- The iterations performed by one run of the retry loop with
`maxSellRetries` as the bound. -/
def performedAttempts (maxSellRetries : ℕ) (outcomes : ℕ → AttemptOutcome) :
    List AttemptOutcome :=
  sellRetryLoop outcomes maxSellRetries 0

/-- Number of performed iterations in which `executeAndConfirm` was
actually invoked. -/
def submissionCount (maxSellRetries : ℕ) (outcomes : ℕ → AttemptOutcome) : ℕ :=
  (performedAttempts maxSellRetries outcomes).countP
    (fun o => decide (o ≠ .threwBeforeSubmit))

/-- Result of `connection.getTokenAccountBalance`: the raw integer amount
(the `amount` string) and the mint decimals.  `uiAmount` is
`amountRaw / 10 ^ decimals`, so the JS guard `uiAmount == 0` holds exactly
when `amountRaw = 0`. -/
structure TokenBal where
  amountRaw : ℕ
  decimals : ℕ
deriving DecidableEq, Repr

/-- The `sellPercentages[Math.floor(Math.random() * 3)]` selection of
`Bot.sell` lines 294-295: the list is `[AVG, HIGH, LOW]` and the random
index is uniform over `{0, 1, 2}`, modelled by a `Fin 3` argument. -/
def selectedSellPercentage (avg high low : ℕ) (tierIdx : Fin 3) : ℕ :=
  [avg, high, low].get ⟨tierIdx.val, tierIdx.isLt⟩

/-- Control-flow result of the active `Bot.sell` (`src/bot.ts` lines
278-363). -/
inductive SellResult where
  /-- `return null` at the balance guard, lines 285-286. -/
  | nullReturn
  /-- `return` at the `baseTokenAmount.isZero()` guard, lines 307-310. -/
  | emptyAmount
  /-- the retry loop ran, submitting `chunkRaw` on each non-throwing
  iteration. -/
  | ran (chunkRaw : ℕ) (attempts : List AttemptOutcome)
deriving DecidableEq, Repr

/-- The active `Bot.sell`: reads the wallet token balance fresh
(`tokenBal`, `none` when the query produced nothing), returns null when it
is missing or its uiAmount is zero, then sizes the chunk from the
`amount` PARAMETER — `new TokenAmount(baseToken, amount, false)` scales
the caller-passed amount by `10 ^ decimals`; the freshly read balance is
used only for the guard and the decimals — multiplies by the selected
percentage and divides by 100 in integer (BN) arithmetic, and runs the
retry loop.  `amountUi` is the `amount` parameter in whole UI units. -/
def sellActive (maxSellRetries avg high low : ℕ) (tokenBal : Option TokenBal)
    (amountUi : ℕ) (tierIdx : Fin 3) (outcomes : ℕ → AttemptOutcome) : SellResult :=
  match tokenBal with
  | none => .nullReturn
  | some bal =>
    if bal.amountRaw = 0 then .nullReturn
    else
      let selected := selectedSellPercentage avg high low tierIdx
      let baseTokenAmountRaw := amountUi * 10 ^ bal.decimals
      let chunkAmount := baseTokenAmountRaw * selected / 100
      if baseTokenAmountRaw = 0 then .emptyAmount
      else .ran chunkAmount (performedAttempts maxSellRetries outcomes)

/-- Raw amounts handed to `this.swap` (and hence to `executeAndConfirm`)
by one run of the active `Bot.sell`, in order. -/
def sellSubmittedAmounts (maxSellRetries avg high low : ℕ) (tokenBal : Option TokenBal)
    (amountUi : ℕ) (tierIdx : Fin 3) (outcomes : ℕ → AttemptOutcome) : List ℕ :=
  match sellActive maxSellRetries avg high low tokenBal amountUi tierIdx outcomes with
  | .ran chunk attempts =>
    (attempts.filter (fun o => decide (o ≠ .threwBeforeSubmit))).map (fun _ => chunk)
  | _ => []

/-- Exit path of a `Bot.sell` invocation; the `finally` block runs on all
three. -/
inductive ExitPath where
  | success
  | failure
  | exception
deriving DecidableEq, Repr

/-- Lifecycle event of one `Bot.sell` invocation: the body starting, or
the body leaving through the `finally` block by some path. -/
inductive SellEvent where
  | enter
  | leave (path : ExitPath)
deriving DecidableEq, Repr

/-- True on leave events. -/
def isLeave : SellEvent → Bool
  | .enter => false
  | .leave _ => true

/-- In-process bookkeeping state of the active `Bot`: how many `sell`
invocations are currently inside their body, and the
`sellExecutionCount` field (`src/bot.ts` line 266). -/
structure BotState where
  attempting : ℤ
  sellExecutionCount : ℤ
deriving DecidableEq, Repr

/-- Effect of one lifecycle event, read off the active `Bot` class: the
body of `sell` begins unconditionally — no call site checks or increments
`sellExecutionCount` (the field is referenced nowhere outside the
`finally` block) — and the `finally` block (`src/bot.ts` lines 358-362)
decrements the field when `oneTokenAtATime` is set, on every exit path. -/
def stepSell (oneTokenAtATime : Bool) (s : BotState) : SellEvent → BotState
  | .enter => { s with attempting := s.attempting + 1 }
  | .leave _ =>
    { attempting := s.attempting - 1
      sellExecutionCount :=
        if oneTokenAtATime then s.sellExecutionCount - 1 else s.sellExecutionCount }

/-- Runs a sequence of sell lifecycle events. -/
def runSell (oneTokenAtATime : Bool) (s : BotState) (events : List SellEvent) : BotState :=
  events.foldl (stepSell oneTokenAtATime) s

/-- Actions available to the account stream error handler. -/
inductive StreamAction where
  /-- `new Promise((resolve) => setTimeout(resolve, ms))` whose result is
  discarded, never awaited. -/
  | scheduleUnawaitedTimer (ms : ℕ)
  /-- `logger.warn(...)`. -/
  | logWarning
  /-- creating a fresh subscription (what resubscribing would be). -/
  | resubscribe
  /-- an actually awaited backoff delay (what the spec mandates). -/
  | backoffAwaited (ms : ℕ)
deriving DecidableEq, Repr

/-- The `accountStream.on("error", ...)` handler of
`GrpcListeners.subscribeToRaydiumPools` (`src/index.ts` lines 380-383,
same in `src/listeners/listeners.ts`): it constructs a 1000 ms timer
promise that is never awaited, logs a warning claiming a resubscription,
and performs no further action — in particular it never calls
`client.subscribe()` again. -/
def onStreamError : List StreamAction :=
  [.scheduleUnawaitedTimer 1000, .logWarning]

/-- Concrete aggregator-routed transaction used to instantiate the C3
classification theorem. -/
def txC3 : ParsedTx :=
  { accountKeys := ["payer", jupiterProgramId]
    preTokenBalances := some [⟨wsolMint, some 0, 0⟩, ⟨"M", some 1, 100⟩]
    postTokenBalances := some [⟨wsolMint, some 0, 7⟩, ⟨"M", some 2, 200⟩] }

/-- Concrete direct-swap transaction with a WSOL delta of 0.01 SOL
(10000000 lamports), used to instantiate the C7 trigger theorem with a
0.05 SOL trigger (Scenario B of the spec). -/
def txC7 : ParsedTx :=
  { accountKeys := ["payer"]
    preTokenBalances := some [⟨wsolMint, some 0, 0⟩, ⟨"M", some 1, 100⟩]
    postTokenBalances := some [⟨wsolMint, some 0, 10000000⟩, ⟨"M", some 0, 50⟩] }

/-- Concrete direct-swap transaction whose WSOL delta equals the trigger
exactly (0.05 SOL = 50000000 lamports), used to instantiate the C10
boundary theorem. -/
def txC10 : ParsedTx :=
  { accountKeys := ["payer"]
    preTokenBalances := some [⟨wsolMint, some 0, 0⟩, ⟨"M", some 1, 100⟩]
    postTokenBalances := some [⟨wsolMint, some 0, 50000000⟩, ⟨"M", some 0, 50⟩] }

end KontraTrading

section scratch
open KontraTrading

example : ((1 : ℚ) / 20) * 1000000000 = 50000000 := by norm_num

example :
    newSwapHandler [] (1/20) "M"
      { accountKeys := ["payer", jupiterProgramId]
        preTokenBalances := some [⟨wsolMint, some 0, 0⟩, ⟨"M", some 1, 100⟩]
        postTokenBalances := some [⟨wsolMint, some 0, 200000000⟩, ⟨"M", some 2, 200⟩] }
      = .sellTriggered 1 := by
  simp [newSwapHandler, wsolMint, jupiterProgramId, List.find?]
  norm_num

example :
    sellSubmittedAmounts 1 50 60 40 (some ⟨1000, 0⟩) 3 0 (fun _ => .unconfirmed) = [1] := by
  decide

example :
    sellRetryLoop (fun i => if i < 2 then .unconfirmed else .confirmed) 5 0
      = [.unconfirmed, .unconfirmed, .confirmed] := by decide

end scratch

namespace KontraTrading

/- General helper lemmas, shared across the claim theorems. -/

theorem sellRetryLoop_length_le (outcomes : ℕ → AttemptOutcome) :
    ∀ fuel i, (sellRetryLoop outcomes fuel i).length ≤ fuel := by
  intro fuel
  induction fuel with
  | zero => intro i; simp [sellRetryLoop]
  | succ n ih =>
    intro i
    by_cases h : outcomes i = .confirmed
    · simp [sellRetryLoop, h]
    · simp only [sellRetryLoop, if_neg h, List.length_cons]
      exact Nat.succ_le_succ (ih (i + 1))

theorem countP_replicate_eq {α : Type} (p : α → Bool) (a : α) (n : ℕ) :
    (List.replicate n a).countP p = if p a then n else 0 := by
  induction n with
  | zero => simp
  | succ k ih =>
    simp only [List.replicate_succ, List.countP_cons, ih]
    split <;> omega

theorem runSell_attempting (oneTokenAtATime : Bool) (events : List SellEvent) :
    ∀ s : BotState,
      (runSell oneTokenAtATime s events).attempting
        = s.attempting + (events.countP (fun e => !isLeave e) : ℤ)
          - (events.countP isLeave : ℤ) := by
  induction events with
  | nil => intro s; simp [runSell]
  | cons e es ih =>
    intro s
    have step : runSell oneTokenAtATime s (e :: es)
        = runSell oneTokenAtATime (stepSell oneTokenAtATime s e) es := rfl
    rw [step, ih (stepSell oneTokenAtATime s e)]
    cases e with
    | enter =>
      simp only [stepSell, isLeave, List.countP_cons, Bool.not_false, if_pos rfl,
        Bool.not_true]
      push_cast
      ring
    | leave p =>
      simp only [stepSell, isLeave, List.countP_cons, Bool.not_true]
      push_cast
      ring

theorem runSell_sellExecutionCount (oneTokenAtATime : Bool) (events : List SellEvent) :
    ∀ s : BotState,
      (runSell oneTokenAtATime s events).sellExecutionCount
        = s.sellExecutionCount
          - (if oneTokenAtATime then (events.countP isLeave : ℤ) else 0) := by
  induction events with
  | nil => intro s; simp [runSell]
  | cons e es ih =>
    intro s
    have step : runSell oneTokenAtATime s (e :: es)
        = runSell oneTokenAtATime (stepSell oneTokenAtATime s e) es := rfl
    rw [step, ih (stepSell oneTokenAtATime s e)]
    cases e with
    | enter =>
      simp only [stepSell, isLeave, List.countP_cons]
      cases oneTokenAtATime <;> simp
    | leave p =>
      simp only [stepSell, isLeave, List.countP_cons]
      cases oneTokenAtATime
      · simp
      · simp
        ring

theorem sellRetryLoop_confirm_shape (outcomes : ℕ → AttemptOutcome) :
    ∀ k fuel i, 1 ≤ k → k ≤ fuel →
      (∀ j, j < k - 1 → outcomes (i + j) = .unconfirmed) →
      outcomes (i + (k - 1)) = .confirmed →
      sellRetryLoop outcomes fuel i
        = List.replicate (k - 1) .unconfirmed ++ [.confirmed] := by
  intro k
  induction k with
  | zero => intro fuel i h1; omega
  | succ k ih =>
    intro fuel i h1 h2 hunc hconf
    obtain ⟨f, rfl⟩ : ∃ f, fuel = f + 1 := ⟨fuel - 1, by omega⟩
    by_cases hk : k = 0
    · subst hk
      have hc : outcomes i = .confirmed := by simpa using hconf
      simp [sellRetryLoop, hc]
    · have h0 : outcomes i = .unconfirmed := by
        have := hunc 0 (by omega)
        simpa using this
      have hne : ¬ outcomes i = .confirmed := by simp [h0]
      have hrest : sellRetryLoop outcomes f (i + 1)
          = List.replicate (k - 1) .unconfirmed ++ [.confirmed] := by
        refine ih f (i + 1) (by omega) (by omega) ?_ ?_
        · intro j hj
          have := hunc (j + 1) (by omega)
          rwa [show i + (j + 1) = i + 1 + j by omega] at this
        · have := hconf
          rwa [show i + (k + 1 - 1) = i + 1 + (k - 1) by omega] at this
      simp only [sellRetryLoop, if_neg hne, hrest, h0]
      rw [show k + 1 - 1 = (k - 1) + 1 by omega, List.replicate_succ]
      simp

end KontraTrading

namespace KontraTrading

/-- C1 counterexample: with a fresh on-chain balance of 1000 raw units
(0 decimals), an `amount` parameter of 3 and the AVG tier (50 percent)
selected, the active `Bot.sell` submits a raw amount of 1 — computed from
the `amount` parameter — whereas floor(balance × tier / 100) would be
500, so the raw amount sold does not equal floor(balance × tier / 100). -/
theorem C1_counterexample :
    sellSubmittedAmounts 1 50 60 40 (some ⟨1000, 0⟩) 3 0 (fun _ => .unconfirmed) = [1]
    ∧ selectedSellPercentage 50 60 40 0 = 50
    ∧ 1000 * 50 / 100 = 500
    ∧ (1 : ℕ) ≠ 500 := by decide

/-- C1 (amended): for every run of the active `Bot.sell` with a nonzero
fresh balance and a nonzero `amount` parameter, there is a tier in the
configured set [AVG, HIGH, LOW] — the one selected by the uniformly random
index — such that every raw amount handed to the submitter equals
floor(amount × 10 ^ decimals × tier / 100), where `amount` is the
caller-passed buy amount, not the freshly read balance (the balance is
used only for the zero guard and the decimals). -/
theorem C1_amended_sell_sizing (maxSellRetries avg high low : ℕ) (bal : TokenBal)
    (amountUi : ℕ) (tierIdx : Fin 3) (outcomes : ℕ → AttemptOutcome)
    (hbal : bal.amountRaw ≠ 0) (hamt : amountUi ≠ 0) :
    ∃ tier ∈ [avg, high, low],
      tier = selectedSellPercentage avg high low tierIdx ∧
      ∀ x ∈ sellSubmittedAmounts maxSellRetries avg high low (some bal) amountUi tierIdx
          outcomes,
        x = amountUi * 10 ^ bal.decimals * tier / 100 := by
  refine ⟨selectedSellPercentage avg high low tierIdx, ?_, rfl, ?_⟩
  · exact List.get_mem _ _ _
  · intro x hx
    have hbase : amountUi * 10 ^ bal.decimals ≠ 0 :=
      Nat.mul_ne_zero hamt (pow_ne_zero _ (by norm_num))
    simp only [sellSubmittedAmounts, sellActive, if_neg hbal, if_neg hbase] at hx
    simp only [List.mem_map] at hx
    obtain ⟨o, _, rfl⟩ := hx
    rfl

/-- C1 witness: the amended statement instantiated at the counterexample
environment. -/
theorem C1_witness :
    ∃ tier ∈ [50, 60, 40],
      tier = selectedSellPercentage 50 60 40 0 ∧
      ∀ x ∈ sellSubmittedAmounts 1 50 60 40 (some ⟨1000, 0⟩) 3 0
          (fun _ => .unconfirmed),
        x = 3 * 10 ^ (0 : ℕ) * tier / 100 :=
  C1_amended_sell_sizing 1 50 60 40 ⟨1000, 0⟩ 3 0 (fun _ => .unconfirmed)
    (by decide) (by decide)

/-- C2 counterexample: in the active `Bot.swap`, a sell-direction
transaction contains no source-account close instruction at all — the
sell spread is empty — refuting the claim that a close instruction is
present exactly when direction is sell. -/
theorem C2_counterexample :
    (swapInstructions false 1 2 .sell 3 4).count Instr.closeAccount = 0
    ∧ swapInstructions false 1 2 .sell 3 4
        = [.computeUnitPrice 1, .computeUnitLimit 2, .swapFixedIn 3 4] := by decide

/-- C2 (amended): in the active `Bot.swap` the instruction sequence is
compute-budget instructions exactly when the executor is not Jito, then a
destination-account creation exactly for the buy direction, then the swap
instruction last; no close instruction is ever appended (the sell spread
is empty).  The close-iff-sell behaviour holds only in the first,
inactive `Bot.swap` variant. -/
theorem C2_amended_instruction_sequence (isJito : Bool) (unitPrice unitLimit : ℕ)
    (direction : Direction) (amountInRaw minAmountOutRaw : ℕ) :
    ((swapInstructions isJito unitPrice unitLimit direction amountInRaw
        minAmountOutRaw).count Instr.closeAccount = 0)
    ∧ (Instr.createAssociatedTokenAccount
        ∈ swapInstructions isJito unitPrice unitLimit direction amountInRaw minAmountOutRaw
        ↔ direction = .buy)
    ∧ ((Instr.computeUnitPrice unitPrice
          ∈ swapInstructions isJito unitPrice unitLimit direction amountInRaw minAmountOutRaw
        ∧ Instr.computeUnitLimit unitLimit
          ∈ swapInstructions isJito unitPrice unitLimit direction amountInRaw minAmountOutRaw)
        ↔ isJito = false)
    ∧ ((swapInstructions isJito unitPrice unitLimit direction amountInRaw
          minAmountOutRaw).getLast?
        = some (.swapFixedIn amountInRaw minAmountOutRaw))
    ∧ (Instr.closeAccount
        ∈ swapInstructionsFirstVariant isJito unitPrice unitLimit direction amountInRaw
            minAmountOutRaw
        ↔ direction = .sell) := by
  cases isJito <;> cases direction <;>
    simp [swapInstructions, swapInstructionsFirstVariant]

/-- C4: on a stream error the handler of
`GrpcListeners.subscribeToRaydiumPools` only schedules an un-awaited
1000 ms timer and logs; it performs no resubscription and no awaited
backoff — the code does not re-establish the subscription, contradicting
the required backoff-then-resubscribe behaviour. -/
theorem C4_stream_error_behaviour :
    onStreamError = [.scheduleUnawaitedTimer 1000, .logWarning]
    ∧ onStreamError.count StreamAction.resubscribe = 0
    ∧ onStreamError.count (StreamAction.backoffAwaited 1000) = 0 := by decide

/-- C5 counterexample: with single-concurrency mode on, two concurrent
entries into `Bot.sell` are both admitted — the bot reaches a state with
two ATTEMPTING orders while `sellExecutionCount` is still 0, refuting the
claim that the in-process counter admits only one. -/
theorem C5_counterexample :
    (runSell true ⟨0, 0⟩ [.enter, .enter]).attempting = 2
    ∧ (runSell true ⟨0, 0⟩ [.enter, .enter]).sellExecutionCount = 0 := by decide

/-- C5 (amended): when single-concurrency mode is on, the
`sellExecutionCount` counter is decremented once per exit of `Bot.sell`
— uniformly on every exit path, by the `finally` block — but nothing ever
increments or checks it: entering `sell` leaves the counter untouched and
raises the number of concurrently ATTEMPTING invocations by one, so the
counter never limits admission. -/
theorem C5_amended_counter_bookkeeping (oneTokenAtATime : Bool) (s : BotState)
    (events : List SellEvent) :
    (runSell oneTokenAtATime s events).attempting
        = s.attempting + (events.countP (fun e => !isLeave e) : ℤ)
          - (events.countP isLeave : ℤ)
    ∧ (runSell oneTokenAtATime s events).sellExecutionCount
        = s.sellExecutionCount
          - (if oneTokenAtATime then (events.countP isLeave : ℤ) else 0)
    ∧ (∀ p : ExitPath,
        (stepSell oneTokenAtATime s (.leave p)).sellExecutionCount
          = if oneTokenAtATime then s.sellExecutionCount - 1 else s.sellExecutionCount)
    ∧ (stepSell oneTokenAtATime s .enter).sellExecutionCount = s.sellExecutionCount
    ∧ (stepSell oneTokenAtATime s .enter).attempting = s.attempting + 1 := by
  refine ⟨runSell_attempting oneTokenAtATime events s,
    runSell_sellExecutionCount oneTokenAtATime events s, ?_, rfl, rfl⟩
  intro p
  rfl

/-- C8: when the fresh balance query returns nothing or reads a zero
balance, the active `Bot.sell` returns immediately: the retry loop is
never entered and no raw amount is handed to the submitter. -/
theorem C8_zero_balance_terminal (maxSellRetries avg high low : ℕ)
    (tokenBal : Option TokenBal) (amountUi : ℕ) (tierIdx : Fin 3)
    (outcomes : ℕ → AttemptOutcome)
    (h : tokenBal = none ∨ ∃ bal, tokenBal = some bal ∧ bal.amountRaw = 0) :
    sellActive maxSellRetries avg high low tokenBal amountUi tierIdx outcomes
        = .nullReturn
    ∧ sellSubmittedAmounts maxSellRetries avg high low tokenBal amountUi tierIdx outcomes
        = [] := by
  have h1 : sellActive maxSellRetries avg high low tokenBal amountUi tierIdx outcomes
      = .nullReturn := by
    rcases h with h | ⟨bal, hb, hz⟩
    · subst h; rfl
    · subst hb; simp [sellActive, hz]
  refine ⟨h1, ?_⟩
  unfold sellSubmittedAmounts
  rw [h1]

/-- C8 witness: a missing balance query result yields the immediate
terminal return with no submissions. -/
theorem C8_witness :
    sellActive 5 50 60 40 none 3 0 (fun _ => .confirmed) = .nullReturn
    ∧ sellSubmittedAmounts 5 50 60 40 none 3 0 (fun _ => .confirmed) = [] :=
  C8_zero_balance_terminal 5 50 60 40 none 3 0 (fun _ => .confirmed) (Or.inl rfl)

/-- C9: whenever the fee payer (`accountKeys[0]`) of an observed
transaction is in the blacklist, the handler returns at the blacklist
guard: no classification happens and `bot.sell` is never invoked,
regardless of the trade size or direction. -/
theorem C9_blacklisted_no_event (blacklist : List String) (trigger : ℚ)
    (tokenAMint : String) (tx : ParsedTx)
    (hb : tx.accountKeys.headD "" ∈ blacklist) :
    newSwapHandler blacklist trigger tokenAMint tx = .blacklisted
    ∧ triggersSell (newSwapHandler blacklist trigger tokenAMint tx) = false := by
  have h : newSwapHandler blacklist trigger tokenAMint tx = .blacklisted := by
    simp only [newSwapHandler]
    rw [if_pos hb]
  exact ⟨h, by rw [h]; rfl⟩

/-- C9 witness: a blacklisted fee payer is discarded even on a large
aggregator-routed buy. -/
theorem C9_witness :
    newSwapHandler ["payer"] 0 "M" txC3 = .blacklisted
    ∧ triggersSell (newSwapHandler ["payer"] 0 "M" txC3) = false :=
  C9_blacklisted_no_event ["payer"] 0 "M" txC3 (by decide)

end KontraTrading

namespace KontraTrading

/-- C6: in the retry loop of the active `Bot.sell` with bound
`maxSellRetries`, if the submitter reports unconfirmed on the first k-1
attempts and confirmed on attempt k ≤ maxSellRetries, then exactly k loop
iterations run, each of them submits, and the submission count is k — in
particular at most `maxSellRetries` — and no further attempt is made
after the confirmation. -/
theorem C6_retry_until_confirmed (maxSellRetries : ℕ) (outcomes : ℕ → AttemptOutcome)
    (k : ℕ) (hk1 : 1 ≤ k) (hkM : k ≤ maxSellRetries)
    (hunc : ∀ i, i < k - 1 → outcomes i = .unconfirmed)
    (hconf : outcomes (k - 1) = .confirmed) :
    performedAttempts maxSellRetries outcomes
        = List.replicate (k - 1) .unconfirmed ++ [.confirmed]
    ∧ (performedAttempts maxSellRetries outcomes).length = k
    ∧ submissionCount maxSellRetries outcomes = k
    ∧ submissionCount maxSellRetries outcomes ≤ maxSellRetries := by
  have hshape : performedAttempts maxSellRetries outcomes
      = List.replicate (k - 1) .unconfirmed ++ [.confirmed] :=
    sellRetryLoop_confirm_shape outcomes k maxSellRetries 0 hk1 hkM
      (fun j hj => by simpa using hunc j hj) (by simpa using hconf)
  have hlen : (performedAttempts maxSellRetries outcomes).length = k := by
    rw [hshape]
    simp
    omega
  have hcount : submissionCount maxSellRetries outcomes = k := by
    unfold submissionCount
    rw [hshape, List.countP_append, countP_replicate_eq]
    simp [List.countP_cons]
    omega
  exact ⟨hshape, hlen, hcount, hcount ▸ hkM⟩

/-- C6 witness: Scenario D — unconfirmed on attempts 1 and 2, confirmed
on attempt 3 with a maximum of 5: the loop stops after attempt 3 with
exactly 3 submissions. -/
theorem C6_witness :
    performedAttempts 5 (fun i => if i < 2 then .unconfirmed else .confirmed)
        = List.replicate 2 .unconfirmed ++ [.confirmed]
    ∧ (performedAttempts 5 (fun i => if i < 2 then .unconfirmed else .confirmed)).length = 3
    ∧ submissionCount 5 (fun i => if i < 2 then .unconfirmed else .confirmed) = 3
    ∧ submissionCount 5 (fun i => if i < 2 then .unconfirmed else .confirmed) ≤ 5 :=
  C6_retry_until_confirmed 5 (fun i => if i < 2 then .unconfirmed else .confirmed) 3
    (by decide) (by decide) (fun i hi => by simp at hi; simp [hi]) (by decide)

/-- C3: for an observed transaction that passes the blacklist guard and
whose WSOL and tracked-mint entries are all found, the handler invokes
`bot.sell` exactly when the WSOL delta strictly exceeds the trigger and
the tracked-token delta has the direction of the branch: an increase
(post greater than pre) when the Jupiter program id is among the account
keys — inverted relative to direct-swap semantics — and a decrease
(post less than pre) otherwise. -/
theorem C3_classification_branches (blacklist : List String) (trigger : ℚ)
    (tokenAMint : String) (tx : ParsedTx) (preL postL : List TokenBalanceInfo)
    (wsolPre tokenAPre wsolPost tokenAPost : TokenBalanceInfo)
    (hb : tx.accountKeys.headD "" ∉ blacklist)
    (hpre : tx.preTokenBalances = some preL)
    (hpost : tx.postTokenBalances = some postL)
    (h1 : preL.find? (fun b => b.mint = wsolMint) = some wsolPre)
    (h2 : preL.find? (fun b => b.mint = tokenAMint) = some tokenAPre)
    (h3 : postL.find? (fun b => b.mint = wsolMint) = some wsolPost)
    (h4 : postL.find? (fun b => b.mint = tokenAMint) = some tokenAPost) :
    triggersSell (newSwapHandler blacklist trigger tokenAMint tx) = true ↔
      ((if jupiterProgramId ∈ tx.accountKeys
        then tokenAPre.uiAmount.getD 0 < tokenAPost.uiAmount.getD 0
        else tokenAPost.uiAmount.getD 0 < tokenAPre.uiAmount.getD 0)
       ∧ trigger * 1000000000 < wsolPost.amount - wsolPre.amount) := by
  simp only [newSwapHandler, hpre, hpost, h1, h2, h3, h4]
  rw [if_neg hb]
  by_cases hj : jupiterProgramId ∈ tx.accountKeys
  · have hany : (tx.accountKeys.any fun k => k = jupiterProgramId) = true := by
      simp only [List.any_eq_true, decide_eq_true_eq]
      exact ⟨_, hj, rfl⟩
    rw [hany, if_pos rfl, if_pos hj]
    by_cases hgt : tokenAPre.uiAmount.getD 0 < tokenAPost.uiAmount.getD 0
    · rw [if_pos hgt]
      by_cases hle : wsolPost.amount - wsolPre.amount ≤ trigger * 1000000000
      · rw [if_pos hle]
        simp only [triggersSell]
        constructor
        · intro h
          exact absurd h (by decide)
        · rintro ⟨-, hlt⟩
          exact absurd hle (not_le.mpr hlt)
      · rw [if_neg hle]
        simp only [triggersSell, true_iff]
        exact ⟨hgt, not_le.mp hle⟩
    · rw [if_neg hgt]
      simp only [triggersSell]
      constructor
      · intro h
        exact absurd h (by decide)
      · rintro ⟨hgt2, -⟩
        exact absurd hgt2 hgt
  · have hany : (tx.accountKeys.any fun k => k = jupiterProgramId) = false := by
      simp only [List.any_eq_false, decide_eq_true_eq]
      intro x hx hxe
      exact hj (hxe ▸ hx)
    rw [hany, if_neg (by decide), if_neg hj]
    by_cases hgt : tokenAPost.uiAmount.getD 0 < tokenAPre.uiAmount.getD 0
    · rw [if_pos hgt]
      by_cases hle : wsolPost.amount - wsolPre.amount ≤ trigger * 1000000000
      · rw [if_pos hle]
        simp only [triggersSell]
        constructor
        · intro h
          exact absurd h (by decide)
        · rintro ⟨-, hlt⟩
          exact absurd hle (not_le.mpr hlt)
      · rw [if_neg hle]
        simp only [triggersSell, true_iff]
        exact ⟨hgt, not_le.mp hle⟩
    · rw [if_neg hgt]
      simp only [triggersSell]
      constructor
      · intro h
        exact absurd h (by decide)
      · rintro ⟨hgt2, -⟩
        exact absurd hgt2 hgt

/-- C3 witness: an aggregator-routed transaction whose tracked-token
balance rises from 1 to 2 and whose WSOL delta of 7 lamports exceeds a
zero trigger is classified as a BUY and `bot.sell` is invoked. -/
theorem C3_witness :
    triggersSell (newSwapHandler [] 0 "M" txC3) = true :=
  (C3_classification_branches [] 0 "M" txC3
      [⟨wsolMint, some 0, 0⟩, ⟨"M", some 1, 100⟩]
      [⟨wsolMint, some 0, 7⟩, ⟨"M", some 2, 200⟩]
      ⟨wsolMint, some 0, 0⟩ ⟨"M", some 1, 100⟩ ⟨wsolMint, some 0, 7⟩ ⟨"M", some 2, 200⟩
      (by simp) rfl rfl (by decide) (by decide) (by decide) (by decide)).mpr
    ⟨by rw [if_pos (by decide)]; norm_num, by norm_num⟩

/-- C7: whenever the WSOL delta of the observed transaction is strictly
below the trigger converted to lamports, the handler never invokes
`bot.sell` — in both branches the guard discards the event. -/
theorem C7_below_trigger_no_sell (blacklist : List String) (trigger : ℚ)
    (tokenAMint : String) (tx : ParsedTx) (preL postL : List TokenBalanceInfo)
    (wsolPre wsolPost : TokenBalanceInfo)
    (hpre : tx.preTokenBalances = some preL)
    (hpost : tx.postTokenBalances = some postL)
    (h1 : preL.find? (fun b => b.mint = wsolMint) = some wsolPre)
    (h3 : postL.find? (fun b => b.mint = wsolMint) = some wsolPost)
    (hlt : wsolPost.amount - wsolPre.amount < trigger * 1000000000) :
    triggersSell (newSwapHandler blacklist trigger tokenAMint tx) = false := by
  rcases hA : preL.find? (fun b => b.mint = tokenAMint) with _ | tokenAPre
  · simp only [newSwapHandler, hpre, hpost, h1, h3, hA]
    split
    · rfl
    · rfl
  · rcases hB : postL.find? (fun b => b.mint = tokenAMint) with _ | tokenAPost
    · simp only [newSwapHandler, hpre, hpost, h1, h3, hA, hB]
      split
      · rfl
      · rfl
    · simp only [newSwapHandler, hpre, hpost, h1, h3, hA, hB]
      split
      · rfl
      · split
        · split
          · rw [if_pos (le_of_lt hlt)]
            rfl
          · rfl
        · split
          · rw [if_pos (le_of_lt hlt)]
            rfl
          · rfl

/-- C7 witness: Scenario B — a direct-swap buy of 0.01 SOL (10000000
lamports) against a 0.05 SOL trigger is discarded and no sell is
attempted. -/
theorem C7_witness :
    triggersSell (newSwapHandler [] (1 / 20) "M" txC7) = false :=
  C7_below_trigger_no_sell [] (1 / 20) "M" txC7
    [⟨wsolMint, some 0, 0⟩, ⟨"M", some 1, 100⟩]
    [⟨wsolMint, some 0, 10000000⟩, ⟨"M", some 0, 50⟩]
    ⟨wsolMint, some 0, 0⟩ ⟨wsolMint, some 0, 10000000⟩
    rfl rfl (by decide) (by decide) (by norm_num)

/-- C10: the trigger guard compares with less-or-equal, so an observed
swap whose WSOL delta exactly equals the trigger in lamports is also
discarded: the handler never invokes `bot.sell` at the boundary, in
either branch. -/
theorem C10_boundary_discarded (blacklist : List String) (trigger : ℚ)
    (tokenAMint : String) (tx : ParsedTx) (preL postL : List TokenBalanceInfo)
    (wsolPre wsolPost : TokenBalanceInfo)
    (hpre : tx.preTokenBalances = some preL)
    (hpost : tx.postTokenBalances = some postL)
    (h1 : preL.find? (fun b => b.mint = wsolMint) = some wsolPre)
    (h3 : postL.find? (fun b => b.mint = wsolMint) = some wsolPost)
    (heq : wsolPost.amount - wsolPre.amount = trigger * 1000000000) :
    triggersSell (newSwapHandler blacklist trigger tokenAMint tx) = false := by
  rcases hA : preL.find? (fun b => b.mint = tokenAMint) with _ | tokenAPre
  · simp only [newSwapHandler, hpre, hpost, h1, h3, hA]
    split
    · rfl
    · rfl
  · rcases hB : postL.find? (fun b => b.mint = tokenAMint) with _ | tokenAPost
    · simp only [newSwapHandler, hpre, hpost, h1, h3, hA, hB]
      split
      · rfl
      · rfl
    · simp only [newSwapHandler, hpre, hpost, h1, h3, hA, hB]
      split
      · rfl
      · split
        · split
          · rw [if_pos (le_of_eq heq)]
            rfl
          · rfl
        · split
          · rw [if_pos (le_of_eq heq)]
            rfl
          · rfl

/-- C10 witness: a direct-swap WSOL delta of exactly 0.05 SOL (50000000
lamports) against a 0.05 SOL trigger is discarded. -/
theorem C10_witness :
    triggersSell (newSwapHandler [] (1 / 20) "M" txC10) = false :=
  C10_boundary_discarded [] (1 / 20) "M" txC10
    [⟨wsolMint, some 0, 0⟩, ⟨"M", some 1, 100⟩]
    [⟨wsolMint, some 0, 50000000⟩, ⟨"M", some 0, 50⟩]
    ⟨wsolMint, some 0, 0⟩ ⟨wsolMint, some 0, 50000000⟩
    rfl rfl (by decide) (by decide) (by norm_num)

end KontraTrading
